import Mathlib

/-!
Shallow embedding of the SPICE USB-redirection channel
(`src/eclipse_projects/SpiceClient/jni/android-spice-src/channel-usbredir.c`).

The channel private structure `SpiceUsbredirChannelPrivate` is embedded as
`Priv`; the observable external effects of the channel operations
(libusb device ref/unref, usbredirhost open/close/flush, event-listening
start/stop, ACL-helper close, keyboard-grab inhibition, completion of the
pending `GSimpleAsyncResult`) are tracked in a surrounding `World` record.
External collaborator outcomes (libusb_open, usbredirhost_open_full,
spice_usb_device_manager_start_event_listening, the ACL helper grant result)
are inputs, supplied through `Env`.

The C file is compiled both with and without `USE_POLKIT`; the embedding
takes the polkit configuration as a boolean parameter `use_polkit` so both
builds are covered by one definition.
-/

set_option autoImplicit false

namespace ChannelUsbredir

/-- States of `enum SpiceUsbredirChannelState` (channel-usbredir.c lines
56-64).  `waitingForAclHelper` exists only in `USE_POLKIT` builds; it is
reachable only when the operations are run with `use_polkit = true`. -/
inductive ChannelState where
  | disconnected
  | waitingForAclHelper
  | connecting
  | connected
  | disconnecting
deriving DecidableEq

/-- Errors produced on the connect path.  Each constructor corresponds to a
distinct `g_set_error` / `g_error_new_literal` site in the C file:
`busy` is the "Error channel is busy" rejection (line 288), `deviceOpenFailed`
carries the libusb return code (line 187), `engineInitFailed` is the error
captured through the catch-error slot when `usbredirhost_open_full` returns
NULL (line 208), `eventRegFailed` is the event-listening registration error
(line 213), `aclHelperFailed` is an error returned by
`spice_usb_acl_helper_open_acl_finish` (line 241, carrying the helper's own
error), and `cancelled` is the `G_IO_ERROR_CANCELLED` synthesized at
line 243. -/
inductive SpiceErr where
  | busy
  | deviceOpenFailed (rc : Int)
  | engineInitFailed
  | eventRegFailed
  | aclHelperFailed (code : Nat)
  | cancelled
deriving DecidableEq

/-- Embedding of `struct _SpiceUsbredirChannelPrivate` (lines 66-80).
Pointer fields become `Option`/`Bool`: `context` and `device` are the
libusb context/device pointers (modelled by identifiers), `host` records
whether the `struct usbredirhost *` engine pointer is non-NULL, `read_buf`
is the inbound buffer view (NULL = `none`; a live pointer carries the bytes
still reachable through it), `read_buf_size` the remaining byte count,
`result` whether the pending `GSimpleAsyncResult *` is set, and
`acl_helper` whether the `SpiceUsbAclHelper *` is set. -/
structure Priv where
  context : Option Nat
  device : Option Nat
  host : Bool
  read_buf : Option (List Nat)
  read_buf_size : Nat
  state : ChannelState
  result : Bool
  acl_helper : Bool
deriving DecidableEq

/-- Observable world around one channel: the `Priv` record plus counters for
each external side-effecting call the channel makes, and the list of
completions delivered on the pending async result (`none` = success,
`some e` = failure with error `e`).  Counters let the theorems express
"called exactly once" / "at most once" properties. -/
structure World where
  priv : Priv
  dev_refs : Nat
  dev_unrefs : Nat
  engine_opens : Nat
  engine_closes : Nat
  listen_starts : Nat
  listen_stops : Nat
  acl_closes : Nat
  inhibit_keyboard_grab : Bool
  flushes : Nat
  channel_connects : Nat
  channel_disconnects : Nat
  engine_buf_frees : Nat
  completions : List (Option SpiceErr)
deriving DecidableEq

/-- Outcomes of the external calls made during device acquisition:
the return code of `libusb_open` (0 = success), whether
`usbredirhost_open_full` returns a non-NULL engine, and whether
`spice_usb_device_manager_start_event_listening` succeeds. -/
structure Env where
  libusb_open_rc : Int
  usbredirhost_open_ok : Bool
  start_event_listening_ok : Bool
deriving DecidableEq

/-- A freshly constructed channel: state `STATE_DISCONNECTED`, all pointers
NULL, no external calls made yet. -/
def World.init : World :=
  { priv := { context := none, device := none, host := false,
              read_buf := none, read_buf_size := 0,
              state := .disconnected, result := false, acl_helper := false }
    dev_refs := 0, dev_unrefs := 0
    engine_opens := 0, engine_closes := 0
    listen_starts := 0, listen_stops := 0
    acl_closes := 0
    inhibit_keyboard_grab := false
    flushes := 0
    channel_connects := 0, channel_disconnects := 0
    engine_buf_frees := 0
    completions := [] }

/-- Embedding of `spice_usbredir_channel_open_device` (lines 172-226).
Returns the C function's gboolean result together with the value left in
the `err` out-parameter.  The `g_return_val_if_fail` state guard returns
FALSE without touching `err` or the channel.  On libusb_open failure the
channel is unchanged; on engine-construction failure `priv->host` has been
assigned NULL; on event-registration failure the freshly opened engine is
closed again; on success the engine is stored, the transport connect is
requested and the state becomes `STATE_CONNECTING`. -/
def open_device (env : Env) (w : World) : Bool × Option SpiceErr × World :=
  let p := w.priv
  if ¬ (p.state = .disconnected ∨ p.state = .waitingForAclHelper) then
    (false, none, w)
  else if env.libusb_open_rc ≠ 0 then
    (false, some (.deviceOpenFailed env.libusb_open_rc), w)
  else if ¬ env.usbredirhost_open_ok then
    (false, some .engineInitFailed, { w with priv := { p with host := false } })
  else if ¬ env.start_event_listening_ok then
    (false, some .eventRegFailed,
      { w with priv := { p with host := false }
               engine_opens := w.engine_opens + 1
               engine_closes := w.engine_closes + 1
               listen_starts := w.listen_starts + 1 })
  else
    (true, none,
      { w with priv := { p with host := true, state := .connecting }
               engine_opens := w.engine_opens + 1
               listen_starts := w.listen_starts + 1
               channel_connects := w.channel_connects + 1 })

/-- Embedding of `spice_usbredir_channel_connect_async` (lines 267-322),
parameterised over the `USE_POLKIT` build configuration.  If the state is
not `STATE_DISCONNECTED` the busy error is set on the result and completed
in idle, with the channel untouched.  Otherwise the context and a new
device reference are taken; in a polkit build the ACL grant request is
issued and the call returns with the result pending; otherwise the device
is opened synchronously and success or the failure error is completed,
with the device reference dropped again on failure. -/
def connect_async (use_polkit : Bool) (env : Env) (ctx dev : Nat)
    (w : World) : World :=
  if w.priv.state ≠ .disconnected then
    { w with completions := w.completions ++ [some .busy] }
  else
    let w1 := { w with priv := { w.priv with context := some ctx, device := some dev }
                       dev_refs := w.dev_refs + 1 }
    if use_polkit then
      { w1 with priv := { w1.priv with result := true,
                                       state := .waitingForAclHelper,
                                       acl_helper := true }
                inhibit_keyboard_grab := true }
    else
      match open_device env w1 with
      | (true, _, w2) => { w2 with completions := w2.completions ++ [none] }
      | (false, e, w2) =>
          { w2 with priv := { w2.priv with device := none, context := none }
                    dev_unrefs := w2.dev_unrefs + 1
                    completions := w2.completions ++ [e] }

/-- Embedding of `spice_usbredir_channel_open_acl_cb` (lines 229-264).
`grant_err` is the error (if any) returned by
`spice_usb_acl_helper_open_acl_finish`.  The two `g_return_if_fail` guards
make the callback a no-op unless the helper is still set and the state is
`STATE_WAITING_FOR_ACL_HELPER` or `STATE_DISCONNECTING`.  A cancellation
error is synthesized only when the grant produced no error and the state is
`STATE_DISCONNECTING`; otherwise device opening is attempted.  On any error
the device reference is dropped, context cleared and state reset; in every
case the ACL is closed, the helper cleared, the keyboard-grab inhibition
lifted and the pending result completed exactly once. -/
def open_acl_cb (env : Env) (grant_err : Option SpiceErr) (w : World) : World :=
  let p := w.priv
  if ¬ p.acl_helper then w
  else if ¬ (p.state = .waitingForAclHelper ∨ p.state = .disconnecting) then w
  else
    let err1 : Option SpiceErr :=
      if grant_err = none ∧ p.state = .disconnecting then some .cancelled
      else grant_err
    let step : Option SpiceErr × World :=
      if err1 = none then
        match open_device env w with
        | (true, _, w1) => (none, w1)
        | (false, e, w1) => (e, w1)
      else (err1, w)
    let w2 :=
      match step.1 with
      | some _ =>
          { step.2 with priv := { step.2.priv with device := none, context := none,
                                                   state := .disconnected }
                        dev_unrefs := step.2.dev_unrefs + 1 }
      | none => step.2
    { w2 with priv := { w2.priv with acl_helper := false, result := false }
              acl_closes := w2.acl_closes + 1
              inhibit_keyboard_grab := false
              completions := w2.completions ++ [step.1] }

/-- Embedding of `spice_usbredir_channel_disconnect` (lines 341-379).
No-op from `STATE_DISCONNECTED` and `STATE_DISCONNECTING`; from
`STATE_WAITING_FOR_ACL_HELPER` it moves to `STATE_DISCONNECTING` and closes
the pending ACL request; from `STATE_CONNECTING`/`STATE_CONNECTED` it
disconnects the transport, stops event listening, closes the engine,
drops the device reference and returns to `STATE_DISCONNECTED`. -/
def disconnect (w : World) : World :=
  let p := w.priv
  match p.state with
  | .disconnected => w
  | .disconnecting => w
  | .waitingForAclHelper =>
      { w with priv := { p with state := .disconnecting }
               acl_closes := w.acl_closes + 1 }
  | .connecting =>
      { w with priv := { p with host := false, device := none, context := none,
                                state := .disconnected }
               channel_disconnects := w.channel_disconnects + 1
               listen_stops := w.listen_stops + 1
               engine_closes := w.engine_closes + 1
               dev_unrefs := w.dev_unrefs + 1 }
  | .connected =>
      { w with priv := { p with host := false, device := none, context := none,
                                state := .disconnected }
               channel_disconnects := w.channel_disconnects + 1
               listen_stops := w.listen_stops + 1
               engine_closes := w.engine_closes + 1
               dev_unrefs := w.dev_unrefs + 1 }

/-- Embedding of `spice_usbredir_channel_up` (lines 509-519).  The
`g_return_if_fail` guard makes it a no-op unless the state is
`STATE_CONNECTING`; otherwise the state becomes `STATE_CONNECTED` and
`usbredirhost_write_guest_data` is called to flush pending writes. -/
def channel_up (w : World) : World :=
  if w.priv.state ≠ .connecting then w
  else { w with priv := { w.priv with state := .connected }
                flushes := w.flushes + 1 }

/-- Embedding of `usbredir_write_flush_callback` (lines 389-398): returns
without calling the engine unless the state is `STATE_CONNECTED`, in which
case `usbredirhost_write_guest_data` is invoked. -/
def usbredir_write_flush_callback (w : World) : World :=
  if w.priv.state ≠ .connected then w
  else { w with flushes := w.flushes + 1 }

/-- Embedding of `usbredir_read_callback` (lines 425-444).  Returns the
count actually copied, the bytes copied into the engine's buffer, and the
updated channel.  `count` is clamped to `read_buf_size`, the copied bytes
are taken from the front of the view, the size is decremented and the
pointer advanced, or set to NULL once the size reaches zero. -/
def usbredir_read_callback (p : Priv) (count : Nat) :
    Nat × List Nat × Priv :=
  let buf := p.read_buf.getD []
  let c := if p.read_buf_size < count then p.read_buf_size else count
  let new_size := p.read_buf_size - c
  (c, buf.take c,
   { p with read_buf_size := new_size
            read_buf := if new_size ≠ 0 then some (buf.drop c) else none })

/-- Modelled from the spec: `usbredirhost_read_guest_data` is part of the
external usbredirhost engine (not in this repository's sources).  Per the
spec it "synchronously drains the view via the read callback potentially
multiple times"; the model takes the engine's sequence of requested chunk
sizes as a parameter and folds `usbredir_read_callback` over it, returning
the cumulative count the read callback returned. -/
def usbredirhost_read_guest_data (requests : List Nat) (p : Priv) :
    Nat × Priv :=
  match requests with
  | [] => (0, p)
  | r :: rs =>
      ((usbredir_read_callback p r).1 +
         (usbredirhost_read_guest_data rs (usbredir_read_callback p r).2.2).1,
       (usbredirhost_read_guest_data rs (usbredir_read_callback p r).2.2).2)

/-- Result of one inbound `SPICE_MSG_SPICEVMC_DATA` dispatch: either one of
the two `g_return_if_fail` defect rejections (which log a critical message
and return without touching the channel), or a completed dispatch with the
cumulative count consumed by the engine. -/
inductive HandleMsgResult where
  | rejectedNoEngine
  | rejectedReentrant
  | dispatched (total : Nat)
deriving DecidableEq

/-- Embedding of `usbredir_handle_msg` (lines 521-538): rejects loudly
(`g_return_if_fail`, a defect-level critical log) when the engine is NULL
or a dispatch is already in progress (`read_buf` non-NULL); otherwise
stakes the message payload as the buffer view and hands it to
`usbredirhost_read_guest_data` (whose read requests are the `requests`
parameter). -/
def usbredir_handle_msg (requests : List Nat) (payload : List Nat)
    (w : World) : HandleMsgResult × World :=
  if ¬ w.priv.host then (.rejectedNoEngine, w)
  else if w.priv.read_buf ≠ none then (.rejectedReentrant, w)
  else
    (.dispatched (usbredirhost_read_guest_data requests
        { w.priv with read_buf := some payload,
                      read_buf_size := payload.length }).1,
     { w with priv := (usbredirhost_read_guest_data requests
        { w.priv with read_buf := some payload,
                      read_buf_size := payload.length }).2 })

/-- What `usbredir_write_callback` schedules to run once the outgoing
message has been transmitted: `spice_marshaller_add_ref_full` is given
`usbredir_free_write_cb_data`, which releases the buffer back to the
engine via `usbredirhost_free_write_buffer`. -/
inductive WriteFreeAction where
  | engineFreeWriteBuffer
deriving DecidableEq

/-- Outgoing message produced by `usbredir_write_callback`: the engine's
buffer is wrapped by reference (`spice_marshaller_add_ref_full`, no copy),
tagged `SPICE_MSGC_SPICEVMC_DATA`, with the buffer-release action attached
for when transmission completes. -/
structure SpiceMsgOut where
  data : List Nat
  count : Nat
  on_transmitted : WriteFreeAction
deriving DecidableEq

/-- Embedding of `usbredir_free_write_cb_data` (lines 446-452): calls
`usbredirhost_free_write_buffer` on the engine, returning the buffer. -/
def usbredir_free_write_cb_data (w : World) : World :=
  { w with engine_buf_frees := w.engine_buf_frees + 1 }

/-- Embedding of `usbredir_write_callback` (lines 454-466): wraps the
engine's buffer into an outgoing `SPICE_MSGC_SPICEVMC_DATA` message with
`usbredir_free_write_cb_data` as the transmission-complete action, sends
it, and returns `count` unconditionally. -/
def usbredir_write_callback (data : List Nat) (count : Nat) :
    Nat × SpiceMsgOut :=
  (count, { data := data, count := count,
            on_transmitted := .engineFreeWriteBuffer })

/-- Reachability by the channel operations named in the spec's state
machine: any interleaving of `connect_async` (either build configuration,
any collaborator outcomes), the ACL grant callback, `channel_up` and
`disconnect`, starting from a fresh channel. -/
inductive Reachable : World → Prop where
  | init : Reachable World.init
  | connect (w : World) (up : Bool) (env : Env) (ctx dev : Nat) :
      Reachable w → Reachable (connect_async up env ctx dev w)
  | aclCb (w : World) (env : Env) (ge : Option SpiceErr) :
      Reachable w → Reachable (open_acl_cb env ge w)
  | up (w : World) : Reachable w → Reachable (channel_up w)
  | disc (w : World) : Reachable w → Reachable (disconnect w)

/-- Driver for the whole connect flow as a caller observes it: run
`connect_async`; if it completed synchronously (busy rejection or the
non-polkit path) that is the outcome, otherwise (polkit pending path)
optionally let `disconnect` cancel the attempt before the ACL grant
callback fires with the grant result.  Used to state device-reference
balance across every failure point of acquisition. -/
def connect_flow (use_polkit : Bool) (env : Env)
    (cancel_before_grant : Bool) (grant_err : Option SpiceErr)
    (ctx dev : Nat) (w : World) : World :=
  let w1 := connect_async use_polkit env ctx dev w
  if w1.completions.length = w.completions.length then
    let w2 := if cancel_before_grant then disconnect w1 else w1
    open_acl_cb env grant_err w2
  else w1

/-- Collaborator outcomes for the all-success acquisition path. -/
def envOk : Env :=
  { libusb_open_rc := 0, usbredirhost_open_ok := true,
    start_event_listening_ok := true }

/-- Concrete channel after a successful non-polkit connect: state
`STATE_CONNECTING`. -/
def wConnecting : World := connect_async false envOk 1 2 World.init

/-- Concrete channel after the transport handshake: state
`STATE_CONNECTED`. -/
def wConnectedSample : World := channel_up wConnecting

/-- Concrete channel waiting for the ACL helper (polkit connect issued). -/
def wWaiting : World := connect_async true envOk 1 2 World.init

/-- Concrete channel whose in-flight polkit connect has been cancelled by
`disconnect`: state `STATE_DISCONNECTING`. -/
def wDisconnecting : World := disconnect wWaiting

/-- C1: a `connect_async` call while the state is not
`STATE_DISCONNECTED` completes synchronously with the busy error on the
async result, and leaves the state, the device reference (no
`libusb_ref_device` call), the context and every other channel field
unchanged. -/
theorem connect_async_busy_rejects (up : Bool) (env : Env) (ctx dev : Nat)
    (w : World) (h : w.priv.state ≠ ChannelState.disconnected) :
    connect_async up env ctx dev w =
      { w with completions := w.completions ++ [some SpiceErr.busy] } := by
  unfold connect_async
  simp [h]

/-- Witness for C1 at a concrete connected channel. -/
theorem connect_async_busy_rejects_witness :
    wConnectedSample.priv.state ≠ ChannelState.disconnected ∧
    connect_async true envOk 1 2 wConnectedSample =
      { wConnectedSample with
          completions := wConnectedSample.completions ++ [some SpiceErr.busy] } :=
  ⟨by decide, connect_async_busy_rejects true envOk 1 2 wConnectedSample (by decide)⟩

/-- C9: invoking the write-flush callback while the state is not
`STATE_CONNECTED` returns immediately: no call into the engine
(`usbredirhost_write_guest_data`) is made and the channel is unchanged. -/
theorem write_flush_noop_when_not_connected (w : World)
    (h : w.priv.state ≠ ChannelState.connected) :
    usbredir_write_flush_callback w = w := by
  unfold usbredir_write_flush_callback
  simp [h]

/-- Witness for C9 at a concrete channel in `STATE_CONNECTING`. -/
theorem write_flush_noop_when_not_connected_witness :
    wConnecting.priv.state ≠ ChannelState.connected ∧
    usbredir_write_flush_callback wConnecting = wConnecting :=
  ⟨by decide, write_flush_noop_when_not_connected wConnecting (by decide)⟩

/-- C7: a dispatch attempted while the engine is absent or while a
dispatch is already in progress (`read_buf` non-NULL) is rejected by the
corresponding `g_return_if_fail` defect guard: the payload is never handed
to the engine, the channel is untouched, and the result is one of the two
loud rejection outcomes (a critical log), never a silent drop or queue. -/
theorem handle_msg_rejects_defect (requests payload : List Nat) (w : World)
    (h : w.priv.host = false ∨ w.priv.read_buf ≠ none) :
    (usbredir_handle_msg requests payload w).2 = w ∧
    ((usbredir_handle_msg requests payload w).1 =
        HandleMsgResult.rejectedNoEngine ∨
     (usbredir_handle_msg requests payload w).1 =
        HandleMsgResult.rejectedReentrant) := by
  unfold usbredir_handle_msg
  rcases h with h | h
  · simp [h]
  · by_cases hh : w.priv.host
    · simp [hh, h]
    · simp [hh]

/-- Witness for C7 at a concrete channel with no engine. -/
theorem handle_msg_rejects_defect_witness :
    (World.init.priv.host = false ∨ World.init.priv.read_buf ≠ none) ∧
    ((usbredir_handle_msg [4] [1, 2, 3] World.init).2 = World.init ∧
     ((usbredir_handle_msg [4] [1, 2, 3] World.init).1 =
        HandleMsgResult.rejectedNoEngine ∨
      (usbredir_handle_msg [4] [1, 2, 3] World.init).1 =
        HandleMsgResult.rejectedReentrant)) :=
  ⟨Or.inl (by decide),
   handle_msg_rejects_defect [4] [1, 2, 3] World.init (Or.inl (by decide))⟩

/-- C10: the write callback always returns exactly `count` (full
acceptance, never a partial write), the outgoing message wraps the
engine's buffer itself (no copy) with that count, its
transmission-complete action is the engine buffer release, and the
release action calls `usbredirhost_free_write_buffer` exactly once. -/
theorem write_callback_full_acceptance (data : List Nat) (count : Nat) :
    (usbredir_write_callback data count).1 = count ∧
    (usbredir_write_callback data count).2.data = data ∧
    (usbredir_write_callback data count).2.count = count ∧
    (usbredir_write_callback data count).2.on_transmitted =
      WriteFreeAction.engineFreeWriteBuffer ∧
    (∀ w : World, usbredir_free_write_cb_data w =
      { w with engine_buf_frees := w.engine_buf_frees + 1 }) :=
  ⟨rfl, rfl, rfl, rfl, fun _ => rfl⟩

/-- Characterization of one read-callback invocation: the returned count is
`min requested remaining`, the copied bytes are the corresponding front of
the view, and the view is advanced, becoming NULL exactly when it runs
dry. -/
lemma usbredir_read_callback_clamp (p : Priv) (c : Nat) :
    usbredir_read_callback p c =
      (min c p.read_buf_size,
       (p.read_buf.getD []).take (min c p.read_buf_size),
       { p with read_buf_size := p.read_buf_size - min c p.read_buf_size
                read_buf :=
                  if p.read_buf_size - min c p.read_buf_size ≠ 0 then
                    some ((p.read_buf.getD []).drop (min c p.read_buf_size))
                  else none }) := by
  unfold usbredir_read_callback
  have hmin : (if p.read_buf_size < c then p.read_buf_size else c) =
      min c p.read_buf_size := by
    split <;> omega
  rw [hmin]

/-- Engine reads against an already-drained view return nothing and leave
the channel unchanged. -/
lemma read_guest_data_empty :
    ∀ (rs : List Nat) (p : Priv), p.read_buf = none → p.read_buf_size = 0 →
      usbredirhost_read_guest_data rs p = (0, p) := by
  intro rs
  induction rs with
  | nil => intro p _ _; rfl
  | cons r rs ih =>
      intro p hb hs
      obtain ⟨ctx, dev, host, rb, rbs, st, res, ah⟩ := p
      change rb = none at hb
      change rbs = 0 at hs
      subst hb hs
      simp only [usbredirhost_read_guest_data, usbredir_read_callback_clamp]
      simp only [Option.getD_none, Nat.min_zero, Nat.sub_zero, List.drop_nil,
        ne_eq, not_true_eq_false, if_false, ite_self]
      rw [ih _ rfl rfl]
      simp

/-- Engine reads whose requested chunk sizes cover the whole view drain it
exactly: the cumulative returned count equals the view's length and the
view ends NULL with size zero, all other channel fields untouched. -/
lemma read_guest_data_drain :
    ∀ (rs : List Nat) (l : List Nat) (p : Priv),
      p.read_buf = some l → p.read_buf_size = l.length →
      rs ≠ [] → l.length ≤ rs.sum →
      usbredirhost_read_guest_data rs p =
        (l.length, { p with read_buf := none, read_buf_size := 0 }) := by
  intro rs
  induction rs with
  | nil => intro l p _ _ hne _; exact absurd rfl hne
  | cons r rs ih =>
      intro l p hb hs _ hsum
      obtain ⟨ctx, dev, host, rb, rbs, st, res, ah⟩ := p
      change rb = some l at hb
      change rbs = l.length at hs
      subst hb hs
      have hsum1 : l.length ≤ r + rs.sum := by simpa using hsum
      simp only [usbredirhost_read_guest_data, usbredir_read_callback_clamp]
      by_cases hr : l.length ≤ r
      · have hc : min r l.length = l.length := by omega
        simp only [hc, Option.getD_some, Nat.sub_self, ne_eq,
          not_true_eq_false, if_false]
        rw [read_guest_data_empty rs _ rfl rfl]
        simp
      · have hc : min r l.length = r := by omega
        have hnz : l.length - r ≠ 0 := by omega
        simp only [hc, Option.getD_some, ne_eq, hnz, not_false_eq_true,
          if_true]
        have hrs : rs ≠ [] := by
          intro he
          subst he
          simp at hsum1
          omega
        rw [ih (l.drop r) _ rfl (by simp) hrs (by simp; omega)]
        simp
        omega

/-- C6: dispatching an inbound message of payload length `L` under the
engine's drain loop (some sequence of read requests totalling at least
`L`) makes the cumulative read-callback returns sum to exactly `L` and
leaves the buffer view empty (NULL pointer, zero size) with the rest of
the channel unchanged; moreover every single read-callback invocation
copies and returns exactly `min(requested_count, remaining_count)`. -/
theorem dispatch_drains_exactly (requests payload : List Nat) (w : World)
    (hh : w.priv.host = true) (hb : w.priv.read_buf = none)
    (hne : requests ≠ []) (hsum : payload.length ≤ requests.sum) :
    usbredir_handle_msg requests payload w =
      (HandleMsgResult.dispatched payload.length,
       { w with priv := { w.priv with read_buf := none,
                                      read_buf_size := 0 } }) ∧
    (∀ (p : Priv) (c : Nat),
      (usbredir_read_callback p c).1 = min c p.read_buf_size ∧
      (usbredir_read_callback p c).2.1 =
        (p.read_buf.getD []).take (min c p.read_buf_size)) := by
  constructor
  · unfold usbredir_handle_msg
    rw [if_neg (by simp [hh]), if_neg (by simp [hb])]
    rw [read_guest_data_drain requests payload _ rfl rfl hne hsum]
  · intro p c
    rw [usbredir_read_callback_clamp]
    exact ⟨rfl, rfl⟩

/-- Witness for C6: a 3-byte payload dispatched into a connected channel
with engine read requests of 2 and 2 bytes. -/
theorem dispatch_drains_exactly_witness :
    (wConnectedSample.priv.host = true ∧
     wConnectedSample.priv.read_buf = none ∧
     [2, 2] ≠ ([] : List Nat) ∧
     [(7 : Nat), 8, 9].length ≤ [2, 2].sum) ∧
    (usbredir_handle_msg [2, 2] [7, 8, 9] wConnectedSample =
      (HandleMsgResult.dispatched ([(7 : Nat), 8, 9]).length,
       { wConnectedSample with
           priv := { wConnectedSample.priv with read_buf := none,
                                                read_buf_size := 0 } }) ∧
     (∀ (p : Priv) (c : Nat),
       (usbredir_read_callback p c).1 = min c p.read_buf_size ∧
       (usbredir_read_callback p c).2.1 =
         (p.read_buf.getD []).take (min c p.read_buf_size))) :=
  ⟨⟨by decide, by decide, by decide, by decide⟩,
   dispatch_drains_exactly [2, 2] [7, 8, 9] wConnectedSample
     (by decide) (by decide) (by decide) (by decide)⟩

/-- C4 counterexample: the claim says the grant callback firing in
`STATE_DISCONNECTING` produces a `Cancelled` error regardless of the grant
result.  In the code the cancellation error is synthesized only when the
grant itself produced no error (`if (!err && priv->state ==
STATE_DISCONNECTING)`, line 242): at the reachable disconnecting channel
below, a grant that failed with its own error has that error — not
`Cancelled` — delivered through the completion callback. -/
theorem acl_cb_disconnecting_grant_error_cex :
    Reachable wDisconnecting ∧
    wDisconnecting.priv.state = ChannelState.disconnecting ∧
    (open_acl_cb envOk (some (SpiceErr.aclHelperFailed 5))
        wDisconnecting).completions = [some (SpiceErr.aclHelperFailed 5)] ∧
    SpiceErr.aclHelperFailed 5 ≠ SpiceErr.cancelled :=
  ⟨Reachable.disc _ (Reachable.connect World.init true envOk 1 2 Reachable.init),
   by decide, by decide, by decide⟩

/-- C4 (amended): when the grant callback fires in `STATE_DISCONNECTING`,
the delivered error is `Cancelled` if the grant itself succeeded, and the
grant's own error if it failed; in both cases the device reference is
released (one `libusb_unref_device`), the context is cleared, the state
becomes `STATE_DISCONNECTED`, the ACL resource is closed and the helper
cleared, the session's keyboard-capture policy is restored, and the error
is delivered exactly once through the pending completion. -/
theorem acl_cb_disconnecting_spec (env : Env) (ge : Option SpiceErr)
    (w : World) (hs : w.priv.state = ChannelState.disconnecting)
    (ha : w.priv.acl_helper = true) :
    open_acl_cb env ge w =
      { w with priv := { w.priv with device := none, context := none,
                                     state := ChannelState.disconnected,
                                     acl_helper := false, result := false }
               dev_unrefs := w.dev_unrefs + 1
               acl_closes := w.acl_closes + 1
               inhibit_keyboard_grab := false
               completions := w.completions ++
                 [some (match ge with
                        | none => SpiceErr.cancelled
                        | some e => e)] } := by
  unfold open_acl_cb
  cases ge with
  | none => simp [hs, ha]
  | some e => simp [hs, ha]

/-- Witness for C4 (amended) at the concrete disconnecting channel with a
successful grant. -/
theorem acl_cb_disconnecting_spec_witness :
    (wDisconnecting.priv.state = ChannelState.disconnecting ∧
     wDisconnecting.priv.acl_helper = true) ∧
    open_acl_cb envOk none wDisconnecting =
      { wDisconnecting with
          priv := { wDisconnecting.priv with device := none, context := none,
                                             state := ChannelState.disconnected,
                                             acl_helper := false,
                                             result := false }
          dev_unrefs := wDisconnecting.dev_unrefs + 1
          acl_closes := wDisconnecting.acl_closes + 1
          inhibit_keyboard_grab := false
          completions := wDisconnecting.completions ++
            [some (match (none : Option SpiceErr) with
                   | none => SpiceErr.cancelled
                   | some e => e)] } :=
  ⟨⟨by decide, by decide⟩,
   acl_cb_disconnecting_spec envOk none wDisconnecting (by decide) (by decide)⟩

/-- C8: a non-polkit `connect_async` from `STATE_DISCONNECTED` whose
device open, engine construction and event registration all succeed
completes the async result with success and leaves the state
`STATE_CONNECTING`; a subsequent `channel_up` moves the state to
`STATE_CONNECTED` and immediately calls the engine flush
(`usbredirhost_write_guest_data`) once, and `channel_up` from any state
other than `STATE_CONNECTING` is a no-op. -/
theorem connect_success_then_channel_up (env : Env) (ctx dev : Nat)
    (w : World) (h : w.priv.state = ChannelState.disconnected)
    (h1 : env.libusb_open_rc = 0) (h2 : env.usbredirhost_open_ok = true)
    (h3 : env.start_event_listening_ok = true) :
    (connect_async false env ctx dev w).completions =
      w.completions ++ [none] ∧
    (connect_async false env ctx dev w).priv.state =
      ChannelState.connecting ∧
    (channel_up (connect_async false env ctx dev w)).priv.state =
      ChannelState.connected ∧
    (channel_up (connect_async false env ctx dev w)).flushes =
      (connect_async false env ctx dev w).flushes + 1 ∧
    (∀ v : World, v.priv.state ≠ ChannelState.connecting →
      channel_up v = v) := by
  have hc : connect_async false env ctx dev w =
      { w with priv := { w.priv with context := some ctx, device := some dev,
                                     host := true,
                                     state := ChannelState.connecting }
               dev_refs := w.dev_refs + 1
               engine_opens := w.engine_opens + 1
               listen_starts := w.listen_starts + 1
               channel_connects := w.channel_connects + 1
               completions := w.completions ++ [none] } := by
    unfold connect_async open_device
    simp [h, h1, h2, h3]
  refine ⟨by rw [hc], by rw [hc], ?_, ?_, ?_⟩
  · rw [hc]
    unfold channel_up
    simp
  · rw [hc]
    unfold channel_up
    simp
  · intro v hv
    unfold channel_up
    simp [hv]

/-- Witness for C8 at a fresh channel with the all-success environment. -/
theorem connect_success_then_channel_up_witness :
    (World.init.priv.state = ChannelState.disconnected ∧
     envOk.libusb_open_rc = 0 ∧ envOk.usbredirhost_open_ok = true ∧
     envOk.start_event_listening_ok = true) ∧
    ((connect_async false envOk 1 2 World.init).completions =
       World.init.completions ++ [none] ∧
     (connect_async false envOk 1 2 World.init).priv.state =
       ChannelState.connecting ∧
     (channel_up (connect_async false envOk 1 2 World.init)).priv.state =
       ChannelState.connected ∧
     (channel_up (connect_async false envOk 1 2 World.init)).flushes =
       (connect_async false envOk 1 2 World.init).flushes + 1 ∧
     (∀ v : World, v.priv.state ≠ ChannelState.connecting →
       channel_up v = v)) :=
  ⟨⟨by decide, by decide, by decide, by decide⟩,
   connect_success_then_channel_up envOk 1 2 World.init
     (by decide) (by decide) (by decide) (by decide)⟩

/-- C2 counterexample: the claim says two successive `disconnect` calls
from every reachable state yield `STATE_DISCONNECTED`.  From the reachable
state `STATE_WAITING_FOR_ACL_HELPER` (polkit connect issued, grant
pending), `disconnect` only moves to `STATE_DISCONNECTING` and waits for
the grant callback, so a second `disconnect` is a no-op and the state is
still not `STATE_DISCONNECTED`. -/
theorem disconnect_twice_not_disconnected_cex :
    Reachable wWaiting ∧
    (disconnect (disconnect wWaiting)).priv.state ≠
      ChannelState.disconnected :=
  ⟨Reachable.connect World.init true envOk 1 2 Reachable.init, by decide⟩

/-- C2 (amended): `disconnect` is total (never fails) and idempotent in
its effects: from every reachable state except
`STATE_WAITING_FOR_ACL_HELPER` and `STATE_DISCONNECTING`, two successive
calls yield `STATE_DISCONNECTED`; from those two states they yield
`STATE_DISCONNECTING` (the final transition to `STATE_DISCONNECTED`
happens when the pending grant callback fires); across the two calls the
engine is closed at most once and the device reference is released at
most once. -/
theorem disconnect_twice_spec (w : World) (_h : Reachable w) :
    (disconnect (disconnect w)).priv.state =
      (if w.priv.state = ChannelState.waitingForAclHelper ∨
          w.priv.state = ChannelState.disconnecting
       then ChannelState.disconnecting else ChannelState.disconnected) ∧
    (disconnect (disconnect w)).engine_closes ≤ w.engine_closes + 1 ∧
    (disconnect (disconnect w)).dev_unrefs ≤ w.dev_unrefs + 1 := by
  rcases hs : w.priv.state <;> simp [disconnect, hs]

/-- Witness for C2 (amended) at the fresh channel. -/
theorem disconnect_twice_spec_witness :
    (disconnect (disconnect World.init)).priv.state =
      (if World.init.priv.state = ChannelState.waitingForAclHelper ∨
          World.init.priv.state = ChannelState.disconnecting
       then ChannelState.disconnecting else ChannelState.disconnected) ∧
    (disconnect (disconnect World.init)).engine_closes ≤
      World.init.engine_closes + 1 ∧
    (disconnect (disconnect World.init)).dev_unrefs ≤
      World.init.dev_unrefs + 1 :=
  disconnect_twice_spec World.init Reachable.init

/-- The engine-existence invariant is preserved by `connect_async`. -/
lemma hostInv_connect (up : Bool) (env : Env) (ctx dev : Nat) (w : World)
    (ih : w.priv.host = true ↔
      (w.priv.state = ChannelState.connecting ∨
       w.priv.state = ChannelState.connected)) :
    (connect_async up env ctx dev w).priv.host = true ↔
      ((connect_async up env ctx dev w).priv.state =
         ChannelState.connecting ∨
       (connect_async up env ctx dev w).priv.state =
         ChannelState.connected) := by
  by_cases hst : w.priv.state = ChannelState.disconnected
  · have hh : w.priv.host = false := by
      rw [hst] at ih
      simpa using ih
    unfold connect_async open_device
    by_cases hup : up
    · simp [hst, hh, hup]
    · by_cases e1 : env.libusb_open_rc = 0
      · by_cases e2 : env.usbredirhost_open_ok
        · by_cases e3 : env.start_event_listening_ok
          · simp [hst, hh, hup, e1, e2, e3]
          · simp [hst, hh, hup, e1, e2, e3]
        · simp [hst, hh, hup, e1, e2]
      · simp [hst, hh, hup, e1]
  · unfold connect_async
    simp only [ne_eq, hst, not_false_eq_true, if_true]
    exact ih

/-- The engine-existence invariant is preserved by the grant callback. -/
lemma hostInv_aclCb (env : Env) (ge : Option SpiceErr) (w : World)
    (ih : w.priv.host = true ↔
      (w.priv.state = ChannelState.connecting ∨
       w.priv.state = ChannelState.connected)) :
    (open_acl_cb env ge w).priv.host = true ↔
      ((open_acl_cb env ge w).priv.state = ChannelState.connecting ∨
       (open_acl_cb env ge w).priv.state = ChannelState.connected) := by
  unfold open_acl_cb open_device
  by_cases ha : w.priv.acl_helper
  · by_cases hs2 : (w.priv.state = ChannelState.waitingForAclHelper ∨
        w.priv.state = ChannelState.disconnecting)
    · have hh : w.priv.host = false := by
        rcases hs2 with hs2 | hs2 <;> rw [hs2] at ih <;> simpa using ih
      rcases hs2 with hsw | hsd
      · cases ge with
        | none =>
            by_cases e1 : env.libusb_open_rc = 0
            · by_cases e2 : env.usbredirhost_open_ok
              · by_cases e3 : env.start_event_listening_ok
                · simp [ha, hsw, hh, e1, e2, e3]
                · simp [ha, hsw, hh, e1, e2, e3]
              · simp [ha, hsw, hh, e1, e2]
            · simp [ha, hsw, hh, e1]
        | some e => simp [ha, hsw, hh]
      · cases ge with
        | none => simp [ha, hsd, hh]
        | some e => simp [ha, hsd, hh]
    · rw [if_neg (by simp [ha]), if_pos hs2]
      exact ih
  · rw [if_pos (by simp [ha])]
    exact ih

/-- The engine-existence invariant is preserved by `channel_up`. -/
lemma hostInv_up (w : World)
    (ih : w.priv.host = true ↔
      (w.priv.state = ChannelState.connecting ∨
       w.priv.state = ChannelState.connected)) :
    (channel_up w).priv.host = true ↔
      ((channel_up w).priv.state = ChannelState.connecting ∨
       (channel_up w).priv.state = ChannelState.connected) := by
  unfold channel_up
  by_cases hs : w.priv.state = ChannelState.connecting
  · have hh : w.priv.host = true := ih.mpr (Or.inl hs)
    simp [hs, hh]
  · rw [if_pos hs]
    exact ih

/-- The engine-existence invariant is preserved by `disconnect`. -/
lemma hostInv_disc (w : World)
    (ih : w.priv.host = true ↔
      (w.priv.state = ChannelState.connecting ∨
       w.priv.state = ChannelState.connected)) :
    (disconnect w).priv.host = true ↔
      ((disconnect w).priv.state = ChannelState.connecting ∨
       (disconnect w).priv.state = ChannelState.connected) := by
  rcases hs : w.priv.state with _ | _ | _ | _ | _
  · rw [hs] at ih
    simp [disconnect, hs]
    simpa using ih
  · rw [hs] at ih
    simp [disconnect, hs]
    simpa using ih
  · simp [disconnect, hs]
  · simp [disconnect, hs]
  · rw [hs] at ih
    simp [disconnect, hs]
    simpa using ih

/-- C5: in every state reachable by the four channel operations, the
redirection-host engine pointer is non-NULL exactly when the channel
state is `STATE_CONNECTING` or `STATE_CONNECTED`. -/
theorem host_iff_connecting_or_connected (w : World) (h : Reachable w) :
    w.priv.host = true ↔
      (w.priv.state = ChannelState.connecting ∨
       w.priv.state = ChannelState.connected) := by
  induction h with
  | init => simp [World.init]
  | connect v up env ctx dev _ ih => exact hostInv_connect up env ctx dev v ih
  | aclCb v env ge _ ih => exact hostInv_aclCb env ge v ih
  | up v _ ih => exact hostInv_up v ih
  | disc v _ ih => exact hostInv_disc v ih

/-- Witness for C5 at a concrete reachable connecting channel. -/
theorem host_iff_connecting_or_connected_witness :
    wConnecting.priv.host = true ↔
      (wConnecting.priv.state = ChannelState.connecting ∨
       wConnecting.priv.state = ChannelState.connected) :=
  host_iff_connecting_or_connected wConnecting
    (Reachable.connect World.init false envOk 1 2 Reachable.init)

/-- C3: whenever the connect flow delivers a failure through the
completion callback — busy rejection, grant failure, cancellation via
`disconnect`, device-open failure, engine-construction failure or
event-registration failure, in either build configuration — the number of
`libusb_ref_device` calls made equals the number of
`libusb_unref_device` calls made, so the device reference count after the
failure is delivered equals the count before `connect_async` was
called. -/
theorem connect_failure_ref_balanced (up : Bool) (env : Env)
    (cancel : Bool) (ge : Option SpiceErr) (ctx dev : Nat) (w : World)
    (e : SpiceErr)
    (h : (connect_flow up env cancel ge ctx dev w).completions =
         w.completions ++ [some e]) :
    (connect_flow up env cancel ge ctx dev w).dev_refs + w.dev_unrefs =
      (connect_flow up env cancel ge ctx dev w).dev_unrefs + w.dev_refs := by
  by_cases hst : w.priv.state = ChannelState.disconnected
  · by_cases hup : up
    · -- polkit path: connect leaves the completion pending
      unfold connect_flow connect_async at h ⊢
      simp only [hst, hup] at h ⊢
      simp only [ne_eq, not_true_eq_false, if_false, if_true] at h ⊢
      by_cases hcl : cancel
      · -- cancellation: disconnect drives the state to disconnecting
        simp only [hcl, if_true] at h ⊢
        unfold disconnect open_acl_cb at h ⊢
        cases ge with
        | none => simp_all
                  omega
        | some e2 => simp_all
                     omega
      · simp only [hcl, if_false] at h ⊢
        unfold open_acl_cb open_device at h ⊢
        cases ge with
        | none =>
            by_cases e1 : env.libusb_open_rc = 0
            · by_cases e2 : env.usbredirhost_open_ok
              · by_cases e3 : env.start_event_listening_ok
                · simp_all
                · simp_all
                  omega
              · simp_all
                omega
            · simp_all
              omega
        | some e2 => simp_all
                     omega
    · -- non-polkit path: connect completes synchronously
      unfold connect_flow connect_async open_device at h ⊢
      by_cases e1 : env.libusb_open_rc = 0
      · by_cases e2 : env.usbredirhost_open_ok
        · by_cases e3 : env.start_event_listening_ok
          · simp_all
          · simp_all
            omega
        · simp_all
          omega
      · simp_all
        omega
  · -- busy rejection: nothing was referenced
    unfold connect_flow connect_async at h ⊢
    simp_all
    omega

/-- Witness for C3: non-polkit connect whose device open fails with
libusb error code -1. -/
theorem connect_failure_ref_balanced_witness :
    (connect_flow false
        { libusb_open_rc := -1, usbredirhost_open_ok := true,
          start_event_listening_ok := true }
        false none 1 2 World.init).completions =
      World.init.completions ++ [some (SpiceErr.deviceOpenFailed (-1))] ∧
    (connect_flow false
        { libusb_open_rc := -1, usbredirhost_open_ok := true,
          start_event_listening_ok := true }
        false none 1 2 World.init).dev_refs + World.init.dev_unrefs =
      (connect_flow false
        { libusb_open_rc := -1, usbredirhost_open_ok := true,
          start_event_listening_ok := true }
        false none 1 2 World.init).dev_unrefs + World.init.dev_refs :=
  ⟨by decide,
   connect_failure_ref_balanced false
     { libusb_open_rc := -1, usbredirhost_open_ok := true,
       start_event_listening_ok := true }
     false none 1 2 World.init (SpiceErr.deviceOpenFailed (-1)) (by decide)⟩

end ChannelUsbredir
